import Mathlib

/-!
Verification of docs/js/cube.js: a browser script that renders a spinning
cube with a video texture, with an overlay button for blocked autoplay.

The script's module-scoped mutable references and its event callbacks are
embedded as Lean functions over an explicit state record `Cube.St`.
Timestamps and rotations are rationals; DOM sizes are naturals (falsy = 0);
the promise returned by video.play() is modelled by a Bool saying whether
it resolved.
-/

namespace Cube

/-- The two materials the cube mesh can hold: the placeholder
MeshBasicMaterial created at load (color 0x222222), or the video-texture
MeshBasicMaterial created in `setupVideoTexture`. -/
inductive Material
  | placeholder
  | videoMat
deriving DecidableEq, Repr

/-- The script's module-scoped mutable state:
* `material`, `materialSet`, `videoTexture` — the cube's material, the
  guard flag, and whether the `videoTexture` reference has been assigned;
* `texNeedsUpdate` — the needsUpdate property of the texture object;
* `last`, `rotX`, `rotY` — the last-frame timestamp and cube rotation;
* `overlayDisplayNone`, `overlayListenerActive` — the overlay button's
  display style and whether its once-only click listener is still attached;
* `readyState` — video.readyState, set by the browser, read by `animate`;
* `cameraAspect`, `rendererW`, `rendererH` — set by `onResize`;
* `framesRendered` — counts calls to renderer.render. -/
structure St where
  material : Material
  materialSet : Bool
  videoTexture : Bool
  texNeedsUpdate : Bool
  last : ℚ
  rotX : ℚ
  rotY : ℚ
  overlayDisplayNone : Bool
  overlayListenerActive : Bool
  readyState : ℕ
  cameraAspect : ℚ
  rendererW : ℕ
  rendererH : ℕ
  framesRendered : ℕ
deriving DecidableEq, Repr

/-- The state right after the synchronous part of the IIFE has run:
placeholder material, no video texture yet, overlay appended and visible,
its once-only click listener attached. -/
def st0 : St where
  material := Material.placeholder
  materialSet := false
  videoTexture := false
  texNeedsUpdate := false
  last := 0
  rotX := 0
  rotY := 0
  overlayDisplayNone := false
  overlayListenerActive := true
  readyState := 0
  cameraAspect := 1
  rendererW := 0
  rendererH := 0
  framesRendered := 0

/-- `setupVideoTexture` (cube.js lines 99-119): if `materialSet` is already
true it returns immediately; otherwise it creates the video texture,
builds a new material from it, assigns it to cube.material and sets the
flag. -/
def setupVideoTexture (s : St) : St :=
  if s.materialSet then s
  else { s with
    videoTexture := true
    texNeedsUpdate := false
    material := Material.videoMat
    materialSet := true }

/-- `hideOverlay` (cube.js lines 95-97): sets overlay.style.display to
"none". -/
def hideOverlay (s : St) : St := { s with overlayDisplayNone := true }

/-- One video.play() attempt together with its attached continuations
(cube.js lines 75-83 for the initial attempt, 86-93 for `tryPlay`): on
resolution run `setupVideoTexture` then `hideOverlay`; on rejection the
.catch handler only logs, leaving the state unchanged. -/
def playAttempt (resolves : Bool) (s : St) : St :=
  if resolves then hideOverlay (setupVideoTexture s) else s

/-- A click on the overlay button. The listener was registered with
`once: true` (cube.js line 68), so it fires only while still attached and
detaches itself before running `tryPlay`. -/
def clickOverlay (resolves : Bool) (s : St) : St :=
  if s.overlayListenerActive then
    playAttempt resolves { s with overlayListenerActive := false }
  else s

/-- Run a sequence of overlay clicks (each with the outcome of the
video.play() call that `tryPlay` would make) and count how many times
`tryPlay` is actually invoked via the overlay listener. -/
def clicksRun : List Bool → St → St × ℕ
  | [], s => (s, 0)
  | r :: rs, s =>
    if s.overlayListenerActive then
      let p := clicksRun rs (playAttempt r { s with overlayListenerActive := false })
      (p.1, p.2 + 1)
    else clicksRun rs s

/-- One frame of the render loop `animate(t)` (cube.js lines 133-150):
update `last`, rotate by dt * 0.35 and dt * 0.6, force the texture's
needsUpdate only when the texture exists and video.readyState >= 2, and
render. -/
def animate (t : ℚ) (s : St) : St :=
  let dt := (t - s.last) / 1000
  { s with
    last := t
    rotX := s.rotX + dt * (35 / 100)
    rotY := s.rotY + dt * (60 / 100)
    texNeedsUpdate :=
      if s.videoTexture = true ∧ 2 ≤ s.readyState then true else s.texNeedsUpdate
    framesRendered := s.framesRendered + 1 }

/-- The dimensions `onResize` reads: the container's clientWidth and
clientHeight and the window's innerWidth and innerHeight (falsy = 0). -/
structure Dims where
  clientW : ℕ
  clientH : ℕ
  innerW : ℕ
  innerH : ℕ
deriving DecidableEq, Repr

/-- `onResize` (cube.js lines 122-128): w = clientWidth || innerWidth,
h = clientHeight || innerHeight; renderer.setSize(w, h) and
camera.aspect = w / h. -/
def onResize (d : Dims) (s : St) : St :=
  let w := if d.clientW = 0 then d.innerW else d.clientW
  let h := if d.clientH = 0 then d.innerH else d.clientH
  { s with
    rendererW := w
    rendererH := h
    cameraAspect := (w : ℚ) / (h : ℚ) }

/-- Number of elements with id "three-container" after the
locate-or-create step (cube.js lines 11-20), as a function of how many
the page had: getElementById misses exactly when there are none, and then
one div with that id is created and appended to document.body. -/
def containersAfterInit (present : ℕ) : ℕ :=
  if present = 0 then 1 else present

/-- Number of container elements the locate-or-create step itself creates. -/
def containersCreated (present : ℕ) : ℕ :=
  if present = 0 then 1 else 0

/-- The effective device pixel ratio `window.devicePixelRatio || 1`
(cube.js line 24): undefined (`none`) and the falsy 0 fall back to 1. -/
def effectiveDPR (dpr : Option ℚ) : ℚ :=
  match dpr with
  | none => 1
  | some d => if d = 0 then 1 else d

/-- The argument passed to renderer.setPixelRatio (cube.js line 24):
Math.min(window.devicePixelRatio || 1, 2). -/
def pixelScaleArg (dpr : Option ℚ) : ℚ :=
  min (effectiveDPR dpr) 2

/-- The failure modes named by the spec. -/
inductive Failure
  | autoplayRejection
  | missingThreeGlobal
  | missingVideoFile
  | unsupportedCodec
deriving DecidableEq, Repr

/-- Which failures the script installs a handler for. The only catch
handlers in cube.js are the .catch on the initial video.play() promise
(lines 80-83) and the .catch inside `tryPlay` (lines 89-91); there is no
try/catch around the THREE constructor calls and no error listener on the
video element, so every other failure is unhandled. -/
def handles : Failure → Bool
  | Failure.autoplayRejection => true
  | _ => false

/-- The top-level statements of the IIFE, abstracted as step labels. -/
inductive Stmt
  | locateOrCreateContainer
  | constructRenderer
  | applyPixelCap
  | appendCanvas
  | constructScene
  | constructCamera
  | constructGeometry
  | constructPlaceholderMat
  | constructMesh
  | addMeshToScene
  | constructVideoElement
  | constructOverlay
  | registerOverlayClick
  | appendOverlay
  | attemptAutoplayThenSwap
  | registerResizeListener
  | callOnResize
  | startRenderLoop
  | assignWindow (prop : String)
  | logLoaded
deriving DecidableEq, Repr

/-- The IIFE body of cube.js in source order: container (lines 11-20),
renderer (23-26), scene and camera (29-31), geometry, placeholder
material, mesh, scene.add (34-38), video element (41-48), overlay with
its once-only click listener (51-69), the autoplay attempt whose .then
swaps the texture (75-83), resize listener registration and the initial
onResize call (129-130), requestAnimationFrame(animate) (151), and the
two window assignments (154-167). -/
def script : List Stmt :=
  [Stmt.locateOrCreateContainer,
   Stmt.constructRenderer, Stmt.applyPixelCap, Stmt.appendCanvas,
   Stmt.constructScene, Stmt.constructCamera,
   Stmt.constructGeometry, Stmt.constructPlaceholderMat,
   Stmt.constructMesh, Stmt.addMeshToScene,
   Stmt.constructVideoElement,
   Stmt.constructOverlay, Stmt.registerOverlayClick, Stmt.appendOverlay,
   Stmt.attemptAutoplayThenSwap,
   Stmt.registerResizeListener, Stmt.callOnResize,
   Stmt.startRenderLoop,
   Stmt.assignWindow "showVideoURL", Stmt.assignWindow "__threeCube",
   Stmt.logLoaded]

/-- The window properties the script assigns, in order. -/
def windowAssigns : List String :=
  script.filterMap fun st =>
    match st with
    | Stmt.assignWindow p => some p
    | _ => none

/-- The fields of the window.__threeCube debug object, in source order
(cube.js lines 161-167). -/
def threeCubeFields : List String :=
  ["video", "cube", "renderer", "scene", "camera"]

end Cube

namespace Cube

/-- Helper: `setupVideoTexture` always leaves the guard flag set. -/
lemma setup_sets_flag (s : St) : (setupVideoTexture s).materialSet = true := by
  unfold setupVideoTexture
  split
  · assumption
  · rfl

/-- Helper: once the guard flag is set, any number of further
`setupVideoTexture` calls leave the state unchanged. -/
lemma setup_fixed_of_set : ∀ (m : ℕ) (s : St), s.materialSet = true →
    setupVideoTexture^[m] s = s := by
  intro m
  induction m with
  | zero => intro s h; rfl
  | succ m ih =>
    intro s h
    rw [Function.iterate_succ_apply]
    have hs : setupVideoTexture s = s := by unfold setupVideoTexture; rw [if_pos h]
    rw [hs]
    exact ih s h

/-- Helper: a play attempt never touches the overlay's click listener. -/
lemma playAttempt_overlayListenerActive (r : Bool) (s : St) :
    (playAttempt r s).overlayListenerActive = s.overlayListenerActive := by
  unfold playAttempt hideOverlay setupVideoTexture
  split
  · split <;> rfl
  · rfl

/-- Helper: a play attempt never touches the last-frame timestamp. -/
lemma playAttempt_last (r : Bool) (s : St) :
    (playAttempt r s).last = s.last := by
  unfold playAttempt hideOverlay setupVideoTexture
  split
  · split <;> rfl
  · rfl

/-- Helper: with the once-only listener already detached, further clicks
never invoke `tryPlay`. -/
lemma clicksRun_count_zero : ∀ (rs : List Bool) (s : St),
    s.overlayListenerActive = false → (clicksRun rs s).2 = 0 := by
  intro rs
  induction rs with
  | nil => intro s h; rfl
  | cons r rs ih =>
    intro s h
    simp only [clicksRun]
    rw [if_neg (by rw [h]; exact Bool.false_ne_true)]
    exact ih s h

/-- Claim C1: the video-texture swap occurs at most once. Iterating
`setupVideoTexture` any positive number of times (one call per successful
video.play resolution) equals a single call; the first call on an unset
state installs the video-texture material and sets `materialSet`; any
call on a set state changes nothing. -/
theorem video_texture_swap_at_most_once (n : ℕ) (s : St) :
    setupVideoTexture^[n + 1] s = setupVideoTexture s
    ∧ (s.materialSet = false →
        (setupVideoTexture s).material = Material.videoMat
        ∧ (setupVideoTexture s).materialSet = true)
    ∧ (s.materialSet = true → setupVideoTexture s = s) := by
  refine ⟨?_, ?_, ?_⟩
  · rw [Function.iterate_succ_apply]
    exact setup_fixed_of_set n (setupVideoTexture s) (setup_sets_flag s)
  · intro h
    have hne : ¬ (s.materialSet = true) := by rw [h]; exact Bool.false_ne_true
    unfold setupVideoTexture
    rw [if_neg hne]
    exact ⟨rfl, rfl⟩
  · intro h
    unfold setupVideoTexture
    rw [if_pos h]

/-- Witness for C1 at the load-time state: three calls equal one, the
first call swaps the material, and a call on an already-set state is the
identity. -/
theorem video_texture_swap_at_most_once_witness :
    setupVideoTexture^[3] st0 = setupVideoTexture st0
    ∧ ((setupVideoTexture st0).material = Material.videoMat
       ∧ (setupVideoTexture st0).materialSet = true)
    ∧ setupVideoTexture { st0 with materialSet := true }
        = { st0 with materialSet := true } :=
  ⟨(video_texture_swap_at_most_once 2 st0).1,
   (video_texture_swap_at_most_once 2 st0).2.1 rfl,
   (video_texture_swap_at_most_once 0 { st0 with materialSet := true }).2.2 rfl⟩

/-- Claim C2: the DOM container is created exactly once even if absent.
On a valid page (at most one element per id), after initialization exactly
one element with id "three-container" exists, and a new one was created
exactly when none was present. -/
theorem container_created_exactly_once (present : ℕ) (h : present ≤ 1) :
    containersAfterInit present = 1
    ∧ containersCreated present = if present = 0 then 1 else 0 := by
  interval_cases present <;> simp [containersAfterInit, containersCreated]

/-- Witness for C2 on a page with no container: one is created and
exactly one results. -/
theorem container_created_exactly_once_witness :
    containersAfterInit 0 = 1
    ∧ containersCreated 0 = if (0 : ℕ) = 0 then 1 else 0 :=
  container_created_exactly_once 0 (by decide)

/-- Claim C3: on every resize, `onResize` sets camera.aspect to exactly
the width and height it passes to renderer.setSize, where the width is
clientWidth with an innerWidth fallback on falsy, and the height is
clientHeight with an innerHeight fallback on falsy. -/
theorem resize_recomputes_aspect (d : Dims) (s : St) :
    (onResize d s).cameraAspect
      = ((onResize d s).rendererW : ℚ) / ((onResize d s).rendererH : ℚ)
    ∧ (onResize d s).rendererW = (if d.clientW = 0 then d.innerW else d.clientW)
    ∧ (onResize d s).rendererH = (if d.clientH = 0 then d.innerH else d.clientH) :=
  ⟨rfl, rfl, rfl⟩

/-- Claim C4: the only handled failure is autoplay rejection. A rejected
play attempt is absorbed by the .catch handler, leaving the state (and so
the overlay, visible at load) unchanged; a resolved attempt hides the
overlay; and the script installs a handler for autoplay rejection but for
none of the other failure modes. -/
theorem only_autoplay_rejection_handled (s : St) :
    playAttempt false s = s
    ∧ (playAttempt true s).overlayDisplayNone = true
    ∧ st0.overlayDisplayNone = false
    ∧ handles Failure.autoplayRejection = true
    ∧ handles Failure.missingThreeGlobal = false
    ∧ handles Failure.missingVideoFile = false
    ∧ handles Failure.unsupportedCodec = false := by
  refine ⟨rfl, ?_, rfl, rfl, rfl, rfl, rfl⟩
  show (hideOverlay (setupVideoTexture s)).overlayDisplayNone = true
  rfl

/-- Claim C5: the overlay's once-only click listener invokes `tryPlay`
at most once over any sequence of clicks, whatever each retry's
video.play outcome is. -/
theorem overlay_retry_at_most_once (rs : List Bool) (s : St) :
    (clicksRun rs s).2 ≤ 1 := by
  induction rs generalizing s with
  | nil => simp [clicksRun]
  | cons r rs ih =>
    by_cases h : s.overlayListenerActive = true
    · simp only [clicksRun]
      rw [if_pos h]
      show (clicksRun rs (playAttempt r { s with overlayListenerActive := false })).2
          + 1 ≤ 1
      rw [clicksRun_count_zero rs _ (by rw [playAttempt_overlayListenerActive])]
    · simp only [clicksRun]
      rw [if_neg h]
      exact ih s

/-- Counterexample to claim C6 as stated: the per-frame `animate` loop
does mutate one of the listed references, the last-frame timestamp —
one frame at t = 16 changes `last` from its load value 0 to 16, so the
state is not mutated only by the autoplay-success and resize callbacks. -/
theorem animate_mutates_last_timestamp : (animate 16 st0).last ≠ st0.last := by
  decide

/-- Claim C6 as amended: the material, the `materialSet` flag and the
video-texture reference are untouched by the animate loop and by the
resize handler (they change only through the play-success path, reachable
from the autoplay callback and the overlay-click retry), while the
last-frame timestamp is rewritten to the frame time by every `animate`
call and is untouched by the play and click paths. -/
theorem state_mutation_paths (t : ℚ) (d : Dims) (r : Bool) (s : St) :
    ((animate t s).material = s.material
     ∧ (animate t s).materialSet = s.materialSet
     ∧ (animate t s).videoTexture = s.videoTexture
     ∧ (animate t s).last = t)
    ∧ ((onResize d s).material = s.material
       ∧ (onResize d s).materialSet = s.materialSet
       ∧ (onResize d s).videoTexture = s.videoTexture
       ∧ (onResize d s).last = s.last)
    ∧ ((playAttempt r s).last = s.last
       ∧ (clickOverlay r s).last = s.last) := by
  refine ⟨⟨rfl, rfl, rfl, rfl⟩, ⟨rfl, rfl, rfl, rfl⟩, playAttempt_last r s, ?_⟩
  unfold clickOverlay
  split
  · rw [playAttempt_last]
  · rfl

/-- Claim C7: the six setup phases occur in the IIFE in the stated order:
container, then renderer/scene/camera/placeholder-mesh, then the video
element and the playback attempt carrying the on-success swap, then the
resize listener, then the render loop start. -/
theorem setup_steps_in_order :
    List.Sublist
      [Stmt.locateOrCreateContainer,
       Stmt.constructRenderer, Stmt.constructScene, Stmt.constructCamera,
       Stmt.constructPlaceholderMat, Stmt.constructMesh,
       Stmt.constructVideoElement, Stmt.attemptAutoplayThenSwap,
       Stmt.registerResizeListener, Stmt.startRenderLoop] script := by
  decide

/-- Claim C8: `animate` never crashes before the video is ready: when the
texture reference is absent or readyState < 2 it leaves needsUpdate
alone, it forces needsUpdate exactly when the texture exists and
readyState >= 2, and in all cases it still rotates the cube and renders
the frame. -/
theorem animate_safe_when_video_not_ready (t : ℚ) (s : St) :
    (s.videoTexture = false ∨ s.readyState < 2 →
       (animate t s).texNeedsUpdate = s.texNeedsUpdate)
    ∧ (s.videoTexture = true → 2 ≤ s.readyState →
       (animate t s).texNeedsUpdate = true)
    ∧ (animate t s).rotX = s.rotX + (t - s.last) / 1000 * (35 / 100)
    ∧ (animate t s).rotY = s.rotY + (t - s.last) / 1000 * (60 / 100)
    ∧ (animate t s).framesRendered = s.framesRendered + 1 := by
  refine ⟨?_, ?_, rfl, rfl, rfl⟩
  · intro h
    show (if s.videoTexture = true ∧ 2 ≤ s.readyState then true else s.texNeedsUpdate)
        = s.texNeedsUpdate
    rw [if_neg]
    rintro ⟨h1, h2⟩
    rcases h with h | h
    · rw [h] at h1
      exact Bool.false_ne_true h1
    · omega
  · intro h1 h2
    show (if s.videoTexture = true ∧ 2 ≤ s.readyState then true else s.texNeedsUpdate)
        = true
    rw [if_pos ⟨h1, h2⟩]

/-- Witness for C8: at the load state (no texture, readyState 0) a frame
leaves needsUpdate alone yet still renders; with the texture present and
readyState 2 a frame forces needsUpdate. -/
theorem animate_safe_when_video_not_ready_witness :
    (animate 16 st0).texNeedsUpdate = st0.texNeedsUpdate
    ∧ (animate 16 { st0 with videoTexture := true, readyState := 2 }).texNeedsUpdate
        = true
    ∧ (animate 16 st0).framesRendered = st0.framesRendered + 1 :=
  ⟨(animate_safe_when_video_not_ready 16 st0).1 (Or.inl rfl),
   (animate_safe_when_video_not_ready 16
      { st0 with videoTexture := true, readyState := 2 }).2.1 rfl (by decide),
   (animate_safe_when_video_not_ready 16 st0).2.2.2.2⟩

/-- Claim C9: the script assigns exactly two window properties,
showVideoURL and __threeCube, and the __threeCube debug object exposes
exactly the video, cube, renderer, scene and camera references. -/
theorem exactly_two_window_globals :
    windowAssigns = ["showVideoURL", "__threeCube"]
    ∧ windowAssigns.length = 2
    ∧ threeCubeFields = ["video", "cube", "renderer", "scene", "camera"] :=
  ⟨by decide, by decide, rfl⟩

/-- Claim C10: for every devicePixelRatio a browser can report
(undefined, or a nonnegative number, with undefined and 0 falling back
to 1), the argument passed to setPixelRatio is min(dpr or 1, 2), which is
positive and at most 2. -/
theorem pixel_scale_capped (dpr : Option ℚ) (h : ∀ q, dpr = some q → 0 ≤ q) :
    pixelScaleArg dpr = min (effectiveDPR dpr) 2
    ∧ 0 < pixelScaleArg dpr
    ∧ pixelScaleArg dpr ≤ 2 := by
  refine ⟨rfl, ?_, min_le_right _ _⟩
  cases dpr with
  | none => norm_num [pixelScaleArg, effectiveDPR]
  | some d =>
    have hd : 0 ≤ d := h d rfl
    by_cases h0 : d = 0
    · norm_num [pixelScaleArg, effectiveDPR, h0]
    · have hpos : 0 < d := lt_of_le_of_ne hd (Ne.symm h0)
      simp only [pixelScaleArg, effectiveDPR, if_neg h0]
      exact lt_min hpos (by norm_num)

/-- Witness for C10 at devicePixelRatio 3: the cap makes the argument 2,
inside the claimed range. -/
theorem pixel_scale_capped_witness :
    pixelScaleArg (some 3) = min (effectiveDPR (some 3)) 2
    ∧ 0 < pixelScaleArg (some 3)
    ∧ pixelScaleArg (some 3) ≤ 2 :=
  pixel_scale_capped (some 3) (fun q hq => by
    injection hq with h
    subst h
    decide)

end Cube
